import Mathlib

/-!
Shallow embedding of the NeuroGraph integration service
(`src/integration_service/`): the miner adapter, the annotation adapter,
the orchestration service and the pipeline API's request model.

Modelling conventions:
* JSON documents are `JVal`; a Python dict is `JVal.obj` with first-match
  key lookup.
* A Python exception crossing a function boundary is the `Except.error`
  branch of that function's result; a normal `return` is `Except.ok`.
* One downstream HTTP exchange is a `NetResult`: either a response
  (status code, optionally-parseable JSON body, raw text) or a transport
  fault (timeout / connection error) raised by the HTTP client.
* The filesystem is a `List String` of existing paths, threaded through
  the functions that create and delete temporary files.
-/

inductive JVal where
  | null : JVal
  | bool : Bool → JVal
  | int : Int → JVal
  | str : String → JVal
  | list : List JVal → JVal
  | obj : List (String × JVal) → JVal

/-- First-match lookup in an association list, the model of Python dict
access (our object literals have distinct keys). -/
def lookupKV : List (String × JVal) → String → Option JVal
  | [], _ => none
  | (k, v) :: rest, key => if k = key then some v else lookupKV rest key

/-- Python `d.get(key)` / `key in d`: only objects carry fields. -/
def JVal.get : JVal → String → Option JVal
  | .obj kvs, key => lookupKV kvs key
  | _, _ => none

/-- Python `isinstance(v, list)`. -/
def JVal.isList : JVal → Bool
  | .list _ => true
  | _ => false

/-- Python `opt == "s"` where `opt` is `d.get(k)`: true exactly when the
field is present and equal to the given string. -/
def optIsStr : Option JVal → String → Bool
  | some (.str t), s => t = s
  | _, _ => false

/-- Python exceptions that appear in the service code.  `str(e)` of each
carries the message stored here (`keyErr k` renders as `'k'`). -/
inductive Exn where
  | fileNotFound : String → Exn
  | runtimeErr : String → Exn
  | valueErr : String → Exn
  | keyErr : String → Exn
  | timeoutErr : String → Exn
  | transportErr : String → Exn
  | jsonErr : String → Exn
  | httpErr : Nat → String → Exn

/-- Python `str(e)`. -/
def exnMsg : Exn → String
  | .fileNotFound m => m
  | .runtimeErr m => m
  | .valueErr m => m
  | .keyErr k => "'" ++ k ++ "'"
  | .timeoutErr m => m
  | .transportErr m => m
  | .jsonErr m => m
  | .httpErr _ m => m

/-- One HTTP response: status code, the parsed JSON body (`none` when the
body is not valid JSON, so that `response.json()` raises), and the raw
body text used in error messages. -/
structure HttpResp where
  status : Nat
  json : Option JVal
  text : String

/-- Behaviour of one downstream HTTP exchange as seen by the client:
either a response arrived, or the client raised a timeout / transport
exception. -/
inductive NetResult where
  | resp : HttpResp → NetResult
  | timeout : String → NetResult
  | transport : String → NetResult

/-- True when the adapter call ended with a raised exception rather than
a returned value. -/
def isRaised : Except Exn JVal → Bool
  | .error _ => true
  | .ok _ => false

/-! ### miner_service.py -/

/-- `MinerService._validate_motif_output`: both `motifs` and
`statistics` keys must be present and `motifs` must be a list. -/
def validate_motif_output (output : JVal) : Bool :=
  match output.get "motifs", output.get "statistics" with
  | some m, some _ => m.isList
  | _, _ => false

/-- `MinerService.mine_motifs`.  Checks local existence of the NetworkX
file before any network activity, posts the file to the miner, raises on
non-200 status, on an unparseable body and on an invalid motif
structure.  The second component counts network calls actually issued to
the mining service. -/
def mine_motifs (fs : List String) (net : NetResult) (path : String) :
    Except Exn JVal × Nat :=
  if fs.contains path then
    match net with
    | .timeout m => (.error (.timeoutErr m), 1)
    | .transport m => (.error (.transportErr m), 1)
    | .resp r =>
      if r.status = 200 then
        match r.json with
        | none => (.error (.jsonErr r.text), 1)
        | some body =>
          if validate_motif_output body then (.ok body, 1)
          else (.error (.valueErr "Invalid motif output structure from miner"), 1)
      else
        (.error (.runtimeErr ("Miner returned " ++ toString r.status ++ ": " ++ r.text)), 1)
  else
    (.error (.fileNotFound ("NetworkX file not found: " ++ path)), 0)

/-! ### annotation_service.py -/

/-- `AnnotationService.annotate_motif`.  Raises when the service URL is
unset (falsy), otherwise posts `{folder_id, type: "cypher", motif}`; a
non-200 status raises a RuntimeError which the blanket `except` rewraps,
as it does timeouts, transport faults and JSON-decode errors (the decode
error's own text is abstracted as the response text).  The second
component records the payload sent, `none` when no request was made. -/
def annotate_motif (service_url : String) (net : NetResult) (job_id : String)
    (motif : JVal) : Except Exn JVal × Option JVal :=
  if service_url = "" then
    (.error (.runtimeErr "Annotation service URL not configured"), none)
  else
    let payload : JVal :=
      .obj [("folder_id", .str job_id), ("type", .str "cypher"), ("motif", motif)]
    let res : Except Exn JVal :=
      match net with
      | .timeout _ => .error (.runtimeErr "Timeout connecting to annotation service")
      | .transport m =>
          .error (.runtimeErr ("Failed to connect to annotation service: " ++ m))
      | .resp r =>
        if r.status = 200 then
          match r.json with
          | none =>
              .error (.runtimeErr ("Failed to connect to annotation service: " ++ r.text))
          | some body => .ok body
        else
          .error (.runtimeErr ("Failed to connect to annotation service: " ++
            "Annotation service returned " ++ toString r.status ++ ": " ++ r.text))
    (res, some payload)

/-! ### orchestration_service.py -/

/-- The shared AtomSpace-builder call duplicated verbatim inside
`_generate_networkx` and `_generate_neo4j`: post the multipart request,
raise a RuntimeError on non-200, parse the JSON body (raising when it is
malformed). -/
def builderCall (net : NetResult) : Except Exn JVal :=
  match net with
  | .timeout m => .error (.timeoutErr m)
  | .transport m => .error (.transportErr m)
  | .resp r =>
    if r.status = 200 then
      match r.json with
      | none => .error (.jsonErr r.text)
      | some body => .ok body
    else
      .error (.runtimeErr ("AtomSpace returned " ++ toString r.status ++ ": " ++ r.text))

/-- Result of `_generate_networkx`: the builder-assigned job id and the
predicted artifact path. -/
structure NetworkxOut where
  job_id : String
  networkx_file : String

/-- `result['job_id']` followed by the path construction
`f"/shared/output/{job_id}/graph.gpickle"`.  A missing field raises a
KeyError; the builder interface gives job ids as JSON strings, so a
non-string value is not modelled beyond the error branch. -/
def networkxFromBody (body : JVal) : Except Exn NetworkxOut :=
  match body.get "job_id" with
  | some (.str j) => .ok ⟨j, "/shared/output/" ++ j ++ "/graph.gpickle"⟩
  | _ => .error (.keyErr "job_id")

/-- `OrchestrationService._generate_networkx`: creates the config and
schema scratch files, calls the builder, and the `finally` block unlinks
both scratch files on every exit path.  Returns the call's outcome and
the filesystem after return. -/
def generate_networkx (net : NetResult) (cfgPath schPath : String)
    (fs0 : List String) : Except Exn NetworkxOut × List String :=
  let fs1 := cfgPath :: schPath :: fs0
  let body : Except Exn NetworkxOut :=
    match builderCall net with
    | .error e => .error e
    | .ok result => networkxFromBody result
  (body, (fs1.erase cfgPath).erase schPath)

/-- `result['job_id']` followed by the literal success dict of
`_generate_neo4j`. -/
def neo4jFromBody (body : JVal) : Except Exn JVal :=
  match body.get "job_id" with
  | some (.str j) => .ok (.obj [("job_id", .str j), ("status", .str "success")])
  | _ => .error (.keyErr "job_id")

/-- `OrchestrationService._generate_neo4j`: same scratch-file lifecycle
as `_generate_networkx`, returning `{"job_id": ..., "status":
"success"}` on success. -/
def generate_neo4j (net : NetResult) (cfgPath schPath : String)
    (fs0 : List String) : Except Exn JVal × List String :=
  let fs1 := cfgPath :: schPath :: fs0
  let body : Except Exn JVal :=
    match builderCall net with
    | .error e => .error e
    | .ok result => neo4jFromBody result
  (body, (fs1.erase cfgPath).erase schPath)

/-- Downstream behaviour one pipeline run observes: the builder's
primary call, the builder's secondary call, the miner call, and the
shared-storage filesystem the miner's existence check consults. -/
structure PipelineEnv where
  primaryNet : NetResult
  secondaryNet : NetResult
  minerNet : NetResult
  sharedFS : List String

/-- How many times each parallel branch was invoked during one run. -/
structure PipelineCalls where
  secondaryCalls : Nat
  minerCalls : Nat

/-- The secondary (Neo4j) parallel branch of one run. -/
def neo4jBranch (env : PipelineEnv) (cfgPath schPath : String) : Except Exn JVal :=
  (generate_neo4j env.secondaryNet cfgPath schPath []).1

/-- The mining parallel branch of one run
(`_mine_motifs` delegates to `MinerService.mine_motifs`). -/
def minerBranch (env : PipelineEnv) (path : String) : Except Exn JVal :=
  (mine_motifs env.sharedFS env.minerNet path).1

/-- `OrchestrationService.process_graph_pipeline`: stage 1 first; on its
exception the outer handler returns the error dict and neither branch is
invoked.  Otherwise both branches run under `asyncio.gather`
(`return_exceptions=True`), exceptions are converted to error dicts, and
the merged dict is built with `status: "success"`, defaulting `motifs`
to `[]` and `statistics` to `{}` when absent. -/
def process_graph_pipeline (env : PipelineEnv) (job_id : String)
    (cfgPath1 schPath1 cfgPath2 schPath2 : String) : JVal × PipelineCalls :=
  match (generate_networkx env.primaryNet cfgPath1 schPath1 []).1 with
  | .error e =>
      (.obj [("job_id", .str job_id), ("status", .str "error"),
             ("error", .str (exnMsg e))], ⟨0, 0⟩)
  | .ok nres =>
    let neo4jDict : JVal :=
      match neo4jBranch env cfgPath2 schPath2 with
      | .ok v => v
      | .error e =>
          .obj [("job_id", .str job_id), ("status", .str "error"),
                ("error", .str (exnMsg e))]
    let minerDict : JVal :=
      match minerBranch env nres.networkx_file with
      | .ok v => v
      | .error e => .obj [("status", .str "error"), ("error", .str (exnMsg e))]
    (.obj [("job_id", .str job_id),
           ("status", .str "success"),
           ("motifs", (minerDict.get "motifs").getD (.list [])),
           ("statistics", (minerDict.get "statistics").getD (.obj [])),
           ("neo4j_job_id", (neo4jDict.get "job_id").getD .null),
           ("neo4j_ready", .bool (optIsStr (neo4jDict.get "status") "success"))],
     ⟨1, 1⟩)

/-- `OrchestrationService._check_neo4j_ready`: single-shot status probe;
any transport fault, non-200 status, unparseable body or a status field
other than "completed" yields `false`, never an exception. -/
def check_neo4j_ready (net : NetResult) : Bool :=
  match net with
  | .resp r =>
    if r.status = 200 then
      match r.json with
      | some body => optIsStr (body.get "status") "completed"
      | none => false
    else false
  | _ => false

/-- Downstream behaviour one `annotate_selected_motif` call observes. -/
structure AnnotateEnv where
  statusNet : NetResult
  annNet : NetResult
  annotation_url : String

/-- `OrchestrationService.annotate_selected_motif`: readiness gate
first; when not ready return the not-ready error dict without touching
the adapter.  The second component counts annotation-adapter
invocations. -/
def annotate_selected_motif (env : AnnotateEnv) (job_id neo4j_job_id : String)
    (motif : JVal) : JVal × Nat :=
  if check_neo4j_ready env.statusNet then
    match (annotate_motif env.annotation_url env.annNet neo4j_job_id motif).1 with
    | .ok ann =>
        (.obj [("job_id", .str job_id), ("status", .str "success"),
               ("annotation", ann)], 1)
    | .error e =>
        (.obj [("job_id", .str job_id), ("status", .str "error"),
               ("error", .str (exnMsg e))], 1)
  else
    (.obj [("status", .str "error"), ("error", .str "Neo4j data not ready")], 0)

/-! ### api/pipeline.py -/

/-- Pydantic field read for an int field with a default: absent means
the default, a JSON int is accepted, anything else is a per-field
validation error (pydantic's numeric coercions are abstracted away; the
model declares no cross-field validator). -/
def getIntField (o : JVal) (k : String) (dflt : Int) : Except String Int :=
  match o.get k with
  | none => .ok dflt
  | some (.int n) => .ok n
  | some _ => .error ("validation error: " ++ k)

/-- Pydantic field read for a string field with a default. -/
def getStrField (o : JVal) (k : String) (dflt : String) : Except String String :=
  match o.get k with
  | none => .ok dflt
  | some (.str s) => .ok s
  | some _ => .error ("validation error: " ++ k)

/-- Pydantic field read for the required `job_id` string field. -/
def getStrRequired (o : JVal) (k : String) : Except String String :=
  match o.get k with
  | some (.str s) => .ok s
  | _ => .error ("validation error: " ++ k)

/-- Pydantic field read for `Optional[str] = None`. -/
def getOptStrField (o : JVal) (k : String) : Except String (Option String) :=
  match o.get k with
  | none => .ok none
  | some .null => .ok none
  | some (.str s) => .ok (some s)
  | some _ => .error ("validation error: " ++ k)

/-- The `MiningConfig` pydantic request model of `api/pipeline.py`. -/
structure MiningConfig where
  job_id : String
  min_pattern_size : Int
  max_pattern_size : Int
  min_neighborhood_size : Int
  max_neighborhood_size : Int
  n_neighborhoods : Int
  n_trials : Int
  graph_type : Option String
  search_strategy : String
  sample_method : String
  graph_output_format : String

/-- Request validation the `/mine-patterns` endpoint performs: pydantic
parses the JSON body against `MiningConfig` — per-field type checks and
defaults only, exactly as the model declares (it has no validator
relating the min/max bounds). -/
def parseMiningConfig (o : JVal) : Except String MiningConfig := do
  let job_id ← getStrRequired o "job_id"
  let minp ← getIntField o "min_pattern_size" 5
  let maxp ← getIntField o "max_pattern_size" 10
  let minn ← getIntField o "min_neighborhood_size" 5
  let maxn ← getIntField o "max_neighborhood_size" 10
  let nn ← getIntField o "n_neighborhoods" 2000
  let nt ← getIntField o "n_trials" 100
  let gt ← getOptStrField o "graph_type"
  let ss ← getStrField o "search_strategy" "greedy"
  let sm ← getStrField o "sample_method" "tree"
  let gof ← getStrField o "graph_output_format" "representative"
  pure ⟨job_id, minp, maxp, minn, maxn, nn, nt, gt, ss, sm, gof⟩

/-- The `/generate-graph` endpoint: filename validation raises a 400
before any temp directory exists; otherwise `mkdtemp` creates the
scratch directory (modelled as one path, files written inside it are
removed with it by `shutil.rmtree`), the orchestration call runs with
outcome `callResult`, and the `finally` block removes the directory on
every exit path. -/
def generate_graph (filenames : List String) (callResult : Except Exn JVal)
    (fs0 : List String) (tempDir : String) : Except Exn JVal × List String :=
  if filenames.all (fun n => n.endsWith ".csv") then
    let fs1 := tempDir :: fs0
    (callResult, fs1.erase tempDir)
  else
    (.error (.httpErr 400 "Only CSV files are allowed"), fs0)

/-! ### The parallel join

`asyncio.gather(neo4j_task, miner_task, return_exceptions=True)` is
modelled as a schedule-indexed join: each task needs some number of
scheduler steps to reach its (predetermined) terminal outcome, a
schedule says which task advances next, and the join returns only once
both tasks are terminal — a task that has already failed does not cancel
its sibling, and the reported pair is always in submitted order. -/

/-- Run the two-task join under a schedule: `true` steps the first task,
`false` the second (stepping an already-terminal task is a no-op); the
pair is returned once both step counters reach zero, `none` if the
schedule ends first. -/
def runGather {α : Type} (a b : α) : List Bool → Nat → Nat → Option (α × α)
  | [], r1, r2 => if r1 = 0 ∧ r2 = 0 then some (a, b) else none
  | c :: rest, r1, r2 =>
    if r1 = 0 ∧ r2 = 0 then some (a, b)
    else if c then runGather a b rest (r1 - 1) r2
    else runGather a b rest r1 (r2 - 1)

/-- Whatever the schedule — whichever branch completes or fails first —
a completed join reports exactly the submitted pair, in submitted
order. -/
theorem runGather_reports_both {α : Type} (a b : α) :
    ∀ (sched : List Bool) (r1 r2 : Nat) (p : α × α),
      runGather a b sched r1 r2 = some p → p = (a, b) := by
  intro sched
  induction sched with
  | nil =>
    intro r1 r2 p h
    unfold runGather at h
    split at h
    · exact (Option.some_injective _ h).symm
    · exact absurd h (Option.noConfusion)
  | cons c rest ih =>
    intro r1 r2 p h
    unfold runGather at h
    split at h
    · exact (Option.some_injective _ h).symm
    · split at h
      · exact ih (r1 - 1) r2 p h
      · exact ih r1 (r2 - 1) p h

/-! ### Claim theorems -/

/-- Claim C2: for every input on which stage 1 (primary NetworkX
generation) fails, `process_graph_pipeline` returns the total-failure
dict (`status: "error"` with the stage-1 error message recorded), and
neither the secondary-graph branch nor the mining branch is invoked
(both branch invocation counts are zero). -/
theorem stage1_failure_is_total_and_skips_branches
    (env : PipelineEnv) (job c1 s1 c2 s2 : String) (e : Exn)
    (h : (generate_networkx env.primaryNet c1 s1 []).1 = .error e) :
    process_graph_pipeline env job c1 s1 c2 s2 =
      (.obj [("job_id", .str job), ("status", .str "error"),
             ("error", .str (exnMsg e))], ⟨0, 0⟩) := by
  unfold process_graph_pipeline
  rw [h]

/-- An environment whose builder rejects the primary request with a 500
status. -/
def envStage1Down : PipelineEnv :=
  ⟨.resp ⟨500, none, "boom"⟩, .resp ⟨200, some (.obj [("job_id", .str "N1")]), ""⟩,
   .resp ⟨200, some (.obj [("motifs", .list []), ("statistics", .obj [])]), ""⟩, []⟩

/-- Witness for C2 at a concrete stage-1 failure. -/
theorem stage1_failure_is_total_and_skips_branches_witness :
    process_graph_pipeline envStage1Down "run" "c1" "s1" "c2" "s2" =
      (.obj [("job_id", .str "run"), ("status", .str "error"),
             ("error", .str "AtomSpace returned 500: boom")], ⟨0, 0⟩) :=
  stage1_failure_is_total_and_skips_branches envStage1Down "run" "c1" "s1" "c2" "s2"
    (.runtimeErr "AtomSpace returned 500: boom") (by rfl)

/-- Claim C5: whenever the readiness probe does not report the terminal
"completed" status, `annotate_selected_motif` returns the not-ready
error dict and never invokes the annotation adapter; and the probe
itself maps transport failures, non-200 statuses and non-completed
status payloads to `false` without raising. -/
theorem annotate_gated_on_readiness
    (env : AnnotateEnv) (job nid : String) (motif : JVal)
    (h : check_neo4j_ready env.statusNet = false) :
    annotate_selected_motif env job nid motif =
      (.obj [("status", .str "error"), ("error", .str "Neo4j data not ready")], 0) ∧
    (∀ m, check_neo4j_ready (.timeout m) = false) ∧
    (∀ m, check_neo4j_ready (.transport m) = false) ∧
    (∀ r : HttpResp, r.status ≠ 200 → check_neo4j_ready (.resp r) = false) ∧
    (∀ (r : HttpResp) (body : JVal), r.json = some body →
       optIsStr (body.get "status") "completed" = false →
       check_neo4j_ready (.resp r) = false) := by
  refine ⟨?_, fun m => rfl, fun m => rfl, ?_, ?_⟩
  · unfold annotate_selected_motif
    rw [h]
    rfl
  · intro r hr
    unfold check_neo4j_ready
    dsimp only
    rw [if_neg hr]
  · intro r body hb hs
    unfold check_neo4j_ready
    dsimp only
    by_cases h200 : r.status = 200
    · rw [if_pos h200, hb]
      exact hs
    · rw [if_neg h200]

/-- A status endpoint still reporting `{status: "processing"}`. -/
def envNotReady : AnnotateEnv :=
  ⟨.resp ⟨200, some (.obj [("status", .str "processing")]), ""⟩,
   .resp ⟨200, some (.obj []), ""⟩, "http://ann"⟩

/-- Witness for C5: scenario C, a still-processing secondary job. -/
theorem annotate_gated_on_readiness_witness :
    annotate_selected_motif envNotReady "run" "N1" (.obj []) =
      (.obj [("status", .str "error"), ("error", .str "Neo4j data not ready")], 0) :=
  (annotate_gated_on_readiness envNotReady "run" "N1" (.obj []) (by rfl)).1

/-- Claim C6: for every pair of branch outcomes of a pipeline run and
every completion schedule, the join runs both parallel branches to a
terminal state (never short-circuiting when one fails) and reports
exactly one outcome per branch, in submitted order, independent of
which branch finishes first. -/
theorem pipeline_join_order_independent
    (env : PipelineEnv) (c2 s2 f : String) (sched : List Bool) (r1 r2 : Nat)
    (p : Except Exn JVal × Except Exn JVal)
    (h : runGather (neo4jBranch env c2 s2) (minerBranch env f) sched r1 r2 = some p) :
    p = (neo4jBranch env c2 s2, minerBranch env f) :=
  runGather_reports_both (neo4jBranch env c2 s2) (minerBranch env f) sched r1 r2 p h

/-- An environment whose secondary branch fails (builder 502) while the
mining branch succeeds. -/
def envSecondaryDown : PipelineEnv :=
  ⟨.resp ⟨200, some (.obj [("job_id", .str "J1")]), ""⟩,
   .resp ⟨502, none, "bad gateway"⟩,
   .resp ⟨200, some (.obj [("motifs", .list []), ("statistics", .obj [])]), ""⟩,
   ["f"]⟩

/-- Witness for C6: under a schedule on which the failing secondary
branch resolves first, the completed join still reports both outcomes in
submitted order. -/
theorem pipeline_join_order_independent_witness :
    ((.error (.runtimeErr "AtomSpace returned 502: bad gateway") : Except Exn JVal),
     (.ok (.obj [("motifs", .list []), ("statistics", .obj [])]) : Except Exn JVal)) =
      (neo4jBranch envSecondaryDown "c2" "s2", minerBranch envSecondaryDown "f") :=
  pipeline_join_order_independent envSecondaryDown "c2" "s2" "f" [true, false] 1 1
    (.error (.runtimeErr "AtomSpace returned 502: bad gateway"),
     .ok (.obj [("motifs", .list []), ("statistics", .obj [])])) (by rfl)

/-- Claim C8: on every exit path of the builder-invoking stages —
success, downstream error, or raised exception — the per-run scratch
artifacts (config/schema scratch files, uploaded-input temp directory)
are removed before the call returns: the filesystem after each call
equals the filesystem before it, for every downstream behaviour and
every call outcome. -/
theorem scratch_artifacts_released_on_every_exit
    (net : NetResult) (cfgPath schPath : String) (fs0 : List String)
    (filenames : List String) (callResult : Except Exn JVal) (tempDir : String) :
    (generate_networkx net cfgPath schPath fs0).2 = fs0 ∧
    (generate_neo4j net cfgPath schPath fs0).2 = fs0 ∧
    (generate_graph filenames callResult fs0 tempDir).2 = fs0 := by
  refine ⟨?_, ?_, ?_⟩
  · simp [generate_networkx, List.erase_cons_head]
  · simp [generate_neo4j, List.erase_cons_head]
  · unfold generate_graph
    split
    · simp [List.erase_cons_head]
    · rfl

/-- Claim C10: the miner adapter fails with a file-not-found error and
issues zero network calls whenever the artifact path does not exist
locally; and the coordinator derives that path purely from the
builder-assigned job id (`/shared/output/<job_id>/graph.gpickle`),
without any check that the artifact was written. -/
theorem miner_guards_on_local_artifact_existence :
    (∀ (fs : List String) (net : NetResult) (p : String),
       fs.contains p = false →
       mine_motifs fs net p =
         (.error (.fileNotFound ("NetworkX file not found: " ++ p)), 0)) ∧
    (∀ (net : NetResult) (c s : String) (fs : List String) (nres : NetworkxOut),
       (generate_networkx net c s fs).1 = .ok nres →
       nres.networkx_file = "/shared/output/" ++ nres.job_id ++ "/graph.gpickle") := by
  constructor
  · intro fs net p hfs
    unfold mine_motifs
    rw [hfs]
    rfl
  · intro net c s fs nres h
    unfold generate_networkx at h
    dsimp only at h
    cases hb : builderCall net with
    | error e => rw [hb] at h; exact absurd h (by simp)
    | ok result =>
      rw [hb] at h
      dsimp only at h
      unfold networkxFromBody at h
      split at h
      · cases h
        rfl
      · exact absurd h (by simp)

/-- Witness for C10: a missing artifact path is rejected locally with no
network call, and a concrete successful stage 1 yields the predicted
path for its job id. -/
theorem miner_guards_on_local_artifact_existence_witness :
    mine_motifs [] (.resp ⟨200, some (.obj [("motifs", .list []), ("statistics", .obj [])]), ""⟩)
        "/shared/output/J1/graph.gpickle" =
      (.error (.fileNotFound "NetworkX file not found: /shared/output/J1/graph.gpickle"), 0) ∧
    ("/shared/output/J1/graph.gpickle" : String) = "/shared/output/" ++ "J1" ++ "/graph.gpickle" :=
  ⟨miner_guards_on_local_artifact_existence.1 []
      (.resp ⟨200, some (.obj [("motifs", .list []), ("statistics", .obj [])]), ""⟩)
      "/shared/output/J1/graph.gpickle" (by rfl),
   miner_guards_on_local_artifact_existence.2
      (.resp ⟨200, some (.obj [("job_id", .str "J1")]), ""⟩) "c" "s" []
      ⟨"J1", "/shared/output/J1/graph.gpickle"⟩ (by rfl)⟩

/-- Scenario B environment: stage 1 succeeds with job "J1", the
secondary branch succeeds with job "N1", and the mining branch times
out; the primary artifact exists on shared storage. -/
def envMinerDown : PipelineEnv :=
  ⟨.resp ⟨200, some (.obj [("job_id", .str "J1")]), "ok"⟩,
   .resp ⟨200, some (.obj [("job_id", .str "N1")]), "ok"⟩,
   .timeout "ReadTimeout",
   ["/shared/output/J1/graph.gpickle"]⟩

/-- Counterexample to claim C1: in scenario B (mining branch times out,
secondary branch succeeds) the merged result is not reported as a
partial failure and records no error for the mining branch — its status
field is "success" and it has no error field at all; the mining error is
silently dropped. -/
theorem merged_result_drops_mining_error_cx :
    (process_graph_pipeline envMinerDown "run" "c1" "s1" "c2" "s2").1.get "status" =
        some (.str "success") ∧
    (process_graph_pipeline envMinerDown "run" "c1" "s1" "c2" "s2").1.get "error" = none ∧
    (process_graph_pipeline envMinerDown "run" "c1" "s1" "c2" "s2").1.get "motifs" =
        some (.list []) ∧
    (process_graph_pipeline envMinerDown "run" "c1" "s1" "c2" "s2").1.get "neo4j_job_id" =
        some (.str "N1") := ⟨rfl, rfl, rfl, rfl⟩

/-- Claim C1 as amended: when stage 1 succeeds, the mining branch fails
and the secondary branch succeeds, the merged result populates the
secondary job id, leaves motifs and statistics empty and sets
`neo4j_ready` true — but it carries `status: "success"` and records no
error for the mining branch (the branch error is dropped from the
merged dict). -/
theorem mining_failure_secondary_success_merged
    (env : PipelineEnv) (job c1 s1 c2 s2 j2 : String) (nres : NetworkxOut) (e : Exn)
    (h1 : (generate_networkx env.primaryNet c1 s1 []).1 = .ok nres)
    (h2 : minerBranch env nres.networkx_file = .error e)
    (h3 : neo4jBranch env c2 s2 =
            .ok (.obj [("job_id", .str j2), ("status", .str "success")])) :
    process_graph_pipeline env job c1 s1 c2 s2 =
      (.obj [("job_id", .str job),
             ("status", .str "success"),
             ("motifs", .list []),
             ("statistics", .obj []),
             ("neo4j_job_id", .str j2),
             ("neo4j_ready", .bool true)], ⟨1, 1⟩) ∧
    (process_graph_pipeline env job c1 s1 c2 s2).1.get "error" = none := by
  have hp : process_graph_pipeline env job c1 s1 c2 s2 =
      (.obj [("job_id", .str job),
             ("status", .str "success"),
             ("motifs", .list []),
             ("statistics", .obj []),
             ("neo4j_job_id", .str j2),
             ("neo4j_ready", .bool true)], ⟨1, 1⟩) := by
    unfold process_graph_pipeline
    rw [h1]
    dsimp only
    rw [h2, h3]
    rfl
  refine ⟨hp, ?_⟩
  rw [hp]
  rfl

/-- Witness for the amended C1, at the scenario-B environment. -/
theorem mining_failure_secondary_success_merged_witness :
    process_graph_pipeline envMinerDown "runW" "c1" "s1" "c2" "s2" =
      (.obj [("job_id", .str "runW"),
             ("status", .str "success"),
             ("motifs", .list []),
             ("statistics", .obj []),
             ("neo4j_job_id", .str "N1"),
             ("neo4j_ready", .bool true)], ⟨1, 1⟩) :=
  (mining_failure_secondary_success_merged envMinerDown "runW" "c1" "s1" "c2" "s2" "N1"
    ⟨"J1", "/shared/output/J1/graph.gpickle"⟩ (.timeoutErr "ReadTimeout")
    (by rfl) (by rfl) (by rfl)).1

/-- Counterexample to claim C4: a mining request with inverted
pattern-size bounds (min=10, max=5) is not rejected — `MiningConfig`
validation accepts it and produces a config carrying the inverted
bounds, so nothing stops it before dispatch. -/
theorem inverted_bounds_accepted_cx :
    parseMiningConfig (.obj [("job_id", .str "J1"), ("min_pattern_size", .int 10),
                             ("max_pattern_size", .int 5)]) =
      .ok ⟨"J1", 10, 5, 5, 10, 2000, 100, none, "greedy", "tree", "representative"⟩ := rfl

/-- Claim C4 as amended: `MiningConfig` performs only per-field type
checks with defaults and declares no ordering constraint between the
pattern-size bounds, so for every pair of bounds — inverted or not —
there is a request that validation accepts with exactly those bounds;
no ValidationError is raised for inversion. -/
theorem mining_config_has_no_bound_ordering_check (a b : Int) :
    ∃ (o : JVal) (c : MiningConfig),
      parseMiningConfig o = .ok c ∧
      c.min_pattern_size = a ∧ c.max_pattern_size = b := by
  refine ⟨.obj [("job_id", .str "J1"), ("min_pattern_size", .int a),
                ("max_pattern_size", .int b)],
          ⟨"J1", a, b, 5, 10, 2000, 100, none, "greedy", "tree", "representative"⟩,
          ?_, rfl, rfl⟩
  rfl

/-- Counterexample to claim C9: the payload the annotation adapter sends
carries the downstream job identity under the key `folder_id`, not
`correlation_id` — the sent payload has no `correlation_id` field. -/
theorem payload_uses_folder_id_not_correlation_id_cx :
    ((annotate_motif "http://ann" (.resp ⟨200, some (.obj []), ""⟩) "N1" (.obj [])).2.map
        (fun p => (p.get "correlation_id", p.get "folder_id", p.get "type"))) =
      some (none, some (.str "N1"), some (.str "cypher")) := rfl

/-- Claim C9 as amended: for every annotation request (with a configured
URL) the payload sent is exactly
`{folder_id: <job id>, type: "cypher", motif: <motif>}` — the job
identity travels as `folder_id` — and a 200 response's JSON body is
returned to the caller unchanged. -/
theorem annotate_payload_shape_and_passthrough
    (url : String) (net : NetResult) (job : String) (motif : JVal)
    (hurl : url ≠ "") :
    (annotate_motif url net job motif).2 =
      some (.obj [("folder_id", .str job), ("type", .str "cypher"), ("motif", motif)]) ∧
    (∀ (r : HttpResp) (body : JVal), net = .resp r → r.status = 200 → r.json = some body →
       (annotate_motif url net job motif).1 = .ok body) := by
  unfold annotate_motif
  rw [if_neg hurl]
  refine ⟨rfl, ?_⟩
  intro r body hnet h200 hbody
  subst hnet
  dsimp only
  rw [if_pos h200, hbody]

/-- Witness for the amended C9 at a concrete request and response. -/
theorem annotate_payload_shape_and_passthrough_witness :
    (annotate_motif "http://ann" (.resp ⟨200, some (.obj [("go", .int 1)]), ""⟩) "N1"
        (.obj [("m", .int 2)])).1 = .ok (.obj [("go", .int 1)]) ∧
    (annotate_motif "http://ann" (.resp ⟨200, some (.obj [("go", .int 1)]), ""⟩) "N1"
        (.obj [("m", .int 2)])).2 =
      some (.obj [("folder_id", .str "N1"), ("type", .str "cypher"),
                  ("motif", .obj [("m", .int 2)])]) :=
  ⟨(annotate_payload_shape_and_passthrough "http://ann"
      (.resp ⟨200, some (.obj [("go", .int 1)]), ""⟩) "N1" (.obj [("m", .int 2)])
      (by decide)).2 ⟨200, some (.obj [("go", .int 1)]), ""⟩ (.obj [("go", .int 1)]) rfl rfl rfl,
   (annotate_payload_shape_and_passthrough "http://ann"
      (.resp ⟨200, some (.obj [("go", .int 1)]), ""⟩) "N1" (.obj [("m", .int 2)])
      (by decide)).1⟩

/-- Counterexample to claim C7: the miner adapter does fail on a 200
response whose body lacks `motifs` (scenario D), but the failure carries
the fixed message "Invalid motif output structure from miner" — the
identical failure for two different malformed bodies — so it does not
carry the remote status or body for diagnostics. -/
theorem miner_shape_failure_carries_no_body_cx :
    (mine_motifs ["f"] (.resp ⟨200, some (.obj [("statistics", .obj [])]),
        "first body"⟩) "f").1 =
      .error (.valueErr "Invalid motif output structure from miner") ∧
    (mine_motifs ["f"] (.resp ⟨200, some (.obj [("other", .int 3)]),
        "second body"⟩) "f").1 =
      .error (.valueErr "Invalid motif output structure from miner") := ⟨rfl, rfl⟩

/-- Claim C7 as amended: the miner adapter never returns a non-success
or shape-invalid response as a success — a non-200 status yields a
failure carrying the remote status and body text, a body lacking a
`motifs` sequence or a `statistics` field yields a failure with a fixed
message (which does not include the body), and a success is returned
only for a 200 response whose body passes shape validation. -/
theorem miner_never_returns_bad_response_as_success
    (fs : List String) (p : String) (r : HttpResp)
    (hex : fs.contains p = true) :
    (r.status ≠ 200 →
       (mine_motifs fs (.resp r) p).1 =
         .error (.runtimeErr ("Miner returned " ++ toString r.status ++ ": " ++ r.text))) ∧
    (∀ body : JVal, r.status = 200 → r.json = some body →
       validate_motif_output body = false →
       (mine_motifs fs (.resp r) p).1 =
         .error (.valueErr "Invalid motif output structure from miner")) ∧
    (∀ v : JVal, (mine_motifs fs (.resp r) p).1 = .ok v →
       r.status = 200 ∧ r.json = some v ∧ validate_motif_output v = true) := by
  have hpm : p ∈ fs := by simpa using hex
  refine ⟨?_, ?_, ?_⟩
  · intro hns
    simp [mine_motifs, hpm, hns]
  · intro body h200 hbody hval
    simp [mine_motifs, hpm, h200, hbody, hval]
  · intro v hv
    by_cases h200 : r.status = 200
    · cases hjson : r.json with
      | none => simp [mine_motifs, hpm, h200, hjson] at hv
      | some body =>
        by_cases hval : validate_motif_output body = true
        · have hbv : body = v := by
            simpa [mine_motifs, hpm, h200, hjson, hval] using hv
          subst hbv
          exact ⟨h200, rfl, hval⟩
        · simp [mine_motifs, hpm, h200, hjson, hval] at hv
    · simp [mine_motifs, hpm, h200] at hv

/-- Witness for the amended C7: scenario D (200, body missing `motifs`)
yields the fixed-message failure. -/
theorem miner_never_returns_bad_response_as_success_witness :
    (mine_motifs ["f"] (.resp ⟨200, some (.obj [("statistics", .obj [])]), "{}"⟩) "f").1 =
      .error (.valueErr "Invalid motif output structure from miner") :=
  (miner_never_returns_bad_response_as_success ["f"] "f"
      ⟨200, some (.obj [("statistics", .obj [])]), "{}"⟩ (by rfl)).2.1
    (.obj [("statistics", .obj [])]) rfl rfl rfl

/-- Counterexample to claim C3: on a downstream timeout neither adapter
returns a tagged failure value — each raises an exception past the
adapter boundary (the miner adapter lets the transport exception
propagate untouched, the annotation adapter re-raises a normalized
RuntimeError), which the caller must catch. -/
theorem adapters_raise_instead_of_returning_failure_cx :
    (mine_motifs ["f"] (.timeout "ReadTimeout") "f").1 =
      .error (.timeoutErr "ReadTimeout") ∧
    (annotate_motif "http://ann" (.timeout "t") "N1" (.obj [])).1 =
      .error (.runtimeErr "Timeout connecting to annotation service") := ⟨rfl, rfl⟩

/-- Claim C3 as amended: for every downstream response in the failure
classes (timeout, transport fault, non-success HTTP status, unparseable
body) each adapter signals failure by raising an exception to its
caller — never by returning the bad response as a success value and
never by returning a tagged failure — and the orchestrating caller
catches those exceptions, always producing a structured result object. -/
theorem adapters_raise_on_failure_and_caller_catches
    (fs : List String) (p m url job : String) (motif : JVal) (r : HttpResp)
    (hurl : url ≠ "") :
    isRaised (mine_motifs fs (.timeout m) p).1 = true ∧
    isRaised (mine_motifs fs (.transport m) p).1 = true ∧
    (r.status ≠ 200 → isRaised (mine_motifs fs (.resp r) p).1 = true) ∧
    (r.json = none → isRaised (mine_motifs fs (.resp r) p).1 = true) ∧
    isRaised (annotate_motif url (.timeout m) job motif).1 = true ∧
    isRaised (annotate_motif url (.transport m) job motif).1 = true ∧
    (r.status ≠ 200 → isRaised (annotate_motif url (.resp r) job motif).1 = true) ∧
    (∀ (env : PipelineEnv) (jid c1 s1 c2 s2 : String),
       ∃ kvs, (process_graph_pipeline env jid c1 s1 c2 s2).1 = .obj kvs) := by
  refine ⟨?_, ?_, ?_, ?_, ?_, ?_, ?_, ?_⟩
  · by_cases hp : p ∈ fs <;> simp [mine_motifs, isRaised, hp]
  · by_cases hp : p ∈ fs <;> simp [mine_motifs, isRaised, hp]
  · intro hns
    by_cases hp : p ∈ fs <;> simp [mine_motifs, isRaised, hp, hns]
  · intro hj
    by_cases hp : p ∈ fs
    · by_cases h200 : r.status = 200 <;>
        simp [mine_motifs, isRaised, hp, h200, hj]
    · simp [mine_motifs, isRaised, hp]
  · simp [annotate_motif, isRaised, hurl]
  · simp [annotate_motif, isRaised, hurl]
  · intro hns
    simp [annotate_motif, isRaised, hurl, hns]
  · intro env jid c1 s1 c2 s2
    unfold process_graph_pipeline
    cases (generate_networkx env.primaryNet c1 s1 []).1 with
    | error e => exact ⟨_, rfl⟩
    | ok nres => exact ⟨_, rfl⟩

/-- Witness for the amended C3: a concrete miner timeout raises, a
concrete annotation transport fault raises. -/
theorem adapters_raise_on_failure_and_caller_catches_witness :
    isRaised (mine_motifs ["f"] (.timeout "t") "f").1 = true ∧
    isRaised (annotate_motif "http://ann" (.transport "refused") "N1" (.obj [])).1 = true :=
  ⟨(adapters_raise_on_failure_and_caller_catches ["f"] "f" "t" "http://ann" "N1"
      (.obj []) ⟨200, none, ""⟩ (by decide)).1,
   (adapters_raise_on_failure_and_caller_catches ["f"] "f" "refused" "http://ann" "N1"
      (.obj []) ⟨200, none, ""⟩ (by decide)).2.2.2.2.2.1⟩
